import Mathlib

/-!
Verification development for `foyer/utils/io.py` (the guarded optional-dependency
importer).  The Python source is shallowly embedded below: the module-level Hint
Table `MESSAGES`, the function `import_`, and the module-load-time probe that
computes `has_mbuild`.  Strings are Lean `String`s, the host import machinery
(`importlib.import_module`) is a parameter `importlib : String -> Option mu`
(`none` models an `ImportError`), the caller's stack frame is a `Frame` record,
and the two output streams are lists of the arguments passed to `print`.
The embedding targets the POSIX platform: `os.linesep` is `"\n"` and
`os.path.basename` splits on `'/'`.
-/

namespace Foyer

/-- Python exception values relevant to `io.py`.  `DelayImportError`
(source lines 13-16) subclasses both `ImportError` and `unittest.SkipTest`,
so it is recognised by an import-error check and by a skip check; a plain
`ImportError` is only recognised by the former.  `KeyError` can arise from
the dict lookup `MESSAGES[module]` on line 75. -/
inductive PyError where
  | importError (msg : String)
  | delayImportError (msg : String)
  | keyError (key : String)
deriving Repr, DecidableEq

/-- `isinstance(e, ImportError)`: true for `ImportError` and its subclass
`DelayImportError`. -/
def PyError.isImportError : PyError → Bool
  | .importError _ => true
  | .delayImportError _ => true
  | .keyError _ => false

/-- `isinstance(e, SkipTest)`: true only for `DelayImportError`. -/
def PyError.isSkipTest : PyError → Bool
  | .delayImportError _ => true
  | _ => false

/-- `os.path.basename` on POSIX: the part of the path after the last `'/'`. -/
def basename (path : String) : String :=
  ((path.splitOn "/").reverse).headD ""

/-- One step of `str.format` with keyword arguments `filename` and
`line_number` (source line 93): scan the template once, replacing each
`\x7bfilename\x7d` field with the filename and each `\x7bline_number\x7d`
field with the line number; any other text is copied verbatim.  The three
templates of `MESSAGES` contain exactly these two field names and no brace
escapes, so this matches Python's `str.format` on every template the source
ever formats. -/
def pyFormatAux (filename lineStr : String) : List Char → List Char
  | [] => []
  | c :: rest =>
    if c = '\x7b' then
      let field := rest.takeWhile (fun d => d != '\x7d')
      let rest2 := (rest.dropWhile (fun d => d != '\x7d')).drop 1
      (if field = "filename".data then filename.data
       else if field = "line_number".data then lineStr.data
       else c :: (field ++ ['\x7d'])) ++ pyFormatAux filename lineStr rest2
    else
      c :: pyFormatAux filename lineStr rest
termination_by l => l.length
decreasing_by
  · have h1 : (rest.dropWhile (fun d => d != '\x7d')).length ≤ rest.length :=
      (List.dropWhile_suffix _).sublist.length_le
    have h2 : ((rest.dropWhile (fun d => d != '\x7d')).drop 1).length ≤
        (rest.dropWhile (fun d => d != '\x7d')).length := by
      rw [List.length_drop]; omega
    simp only [List.length_cons]
    omega
  · simp only [List.length_cons]
    omega

/-- `message.format(filename=..., line_number=...)` (source line 93). -/
def pyFormat (template filename : String) (lineNumber : Nat) : String :=
  String.mk (pyFormatAux filename (toString lineNumber) template.data)

/-- A space or a tab, the characters `textwrap.dedent` treats as indentation. -/
def isWsChar (c : Char) : Bool := c = ' ' || c = '\t'

/-- A nonempty line consisting solely of spaces and tabs
(`textwrap`'s `_whitespace_only_re`). -/
def isWsOnly (l : String) : Bool := !l.isEmpty && l.data.all isWsChar

/-- The leading run of spaces and tabs of a line
(`textwrap`'s `_leading_whitespace_re`). -/
def indentOf (l : String) : List Char := l.data.takeWhile isWsChar

/-- Longest common prefix of two character lists; `textwrap.dedent`'s
margin-merging loop computes exactly this on indentation strings. -/
def lcpChars : List Char → List Char → List Char
  | x :: xs, y :: ys => if x = y then x :: lcpChars xs ys else []
  | _, _ => []

/-- The common margin of the nonempty lines (whitespace-only lines having
already been normalised to empty). -/
def dedentMargin (lines : List String) : List Char :=
  match (lines.filter (fun l => !l.isEmpty)).map indentOf with
  | [] => []
  | i :: rest => rest.foldl lcpChars i

/-- Remove the margin from the front of a line when it is present
(`re.sub('(?m)^' + margin, '', text)`). -/
def stripMargin (margin : List Char) (l : String) : String :=
  if margin.isPrefixOf l.data then String.mk (l.data.drop margin.length) else l

/-- `textwrap.dedent` (source line 94): whitespace-only lines are normalised
to empty, the longest common leading space/tab margin of the remaining lines
is computed, and that margin is stripped from the front of every line. -/
def dedent (text : String) : String :=
  let lines := (text.splitOn "\n").map (fun l => if isWsOnly l then "" else l)
  String.intercalate "\n" (lines.map (stripMargin (dedentMargin lines)))

/-- `max(len(line) for line in m.split(os.linesep))` (source line 98), with
`os.linesep = "\n"`; `splitOn` never returns an empty list and lengths are
nonnegative, so folding `max` from `0` agrees with Python's `max`. -/
def maxLineLen (m : String) : Nat :=
  ((m.splitOn "\n").map String.length).foldl max 0

/-- The separator bar of source lines 96-100: a row of `'#'` as long as the
longest line of the formatted message, wrapped in the bright-red ANSI code
`"\x1b[91m"` and the reset code `"\x1b[0m"`. -/
def mkBar (m : String) : String :=
  "\x1b[91m" ++ String.mk (List.replicate (maxLineLen m) '#') ++ "\x1b[0m"

/-- The value `MESSAGES["mbuild"]` (source lines 20-28). -/
def mbuildMessage : String :=
  "\n\nThe code at {filename}:{line_number} requires the \"mbuild\" package\n\nmbuild can be installed using:\n\n# conda install -c conda-forge mbuild\n\n"

/-- The value `MESSAGES["gmso"]` (source lines 30-37). -/
def gmsoMessage : String :=
  "\n\nThe code at {filename}:{line_number} requires the \"gmso\" package\n\ngmso can be installed using:\n\n# conda install -c conda-forge gmso\n"

/-- The value `MESSAGES["openff.toolkit"]` (source lines 39-46). -/
def openffToolkitMessage : String :=
  "\n\nThe code at {filename}:{line_number} requires the \"openff-toolkit\" package\n\nopenff-toolkit can be installed using:\n\n# conda install -c conda-forge openff-toolkit\n"

/-- The Hint Table `MESSAGES` (source lines 19-46), as an association list
in insertion order; `List.lookup` models the dict lookup `MESSAGES[module]`. -/
def MESSAGES : List (String × String) :=
  [("mbuild", mbuildMessage),
   ("gmso", gmsoMessage),
   ("openff.toolkit", openffToolkitMessage)]

/-- The caller's frame information used on source lines 84-93: the source
file path and the line number one level up the stack. -/
structure Frame where
  filename : String
  line_number : Nat
deriving Repr, DecidableEq

/-- The observable outcome of one call of `import_`: the returned value or
raised exception, the arguments of the `print(..., file=sys.stderr)` calls in
order, the arguments of any `print` to `sys.stdout` (there are none in the
source), the number of `importlib.import_module` invocations, the Hint Table
as it stands after the call, and the fallback template string when the
source's lines 77-81 built one (it is built and then never used). -/
structure ImportResult (μ : Type) where
  result : Except PyError μ
  stderrPrints : List String
  stdoutPrints : List String
  importAttempts : Nat
  messagesAfter : List (String × String)
  builtFallback : Option String

/-- The generic template assembled on source lines 77-81; note the
`\x7bfilename\x7d:\x7bline_number\x7d` placeholders are part of the literal
and are never interpolated on that branch. -/
def fallbackTemplate (module : String) : String :=
  "The code at {filename}:{line_number} requires the " ++ module ++ " package"

/-- Shallow embedding of `import_` (source lines 49-106).
`importlib module = some m` models a successful `importlib.import_module`;
`none` models it raising `ImportError`.  On failure the dict lookup either
misses (the `KeyError` branch: build the fallback template, then raise a plain
`ImportError("No module named %s" % module)` without using it) or hits (format
the template with the caller's base filename and line number, dedent, build
the bar, print the blank line, bar, message, bar to stderr, and raise
`DelayImportError` carrying the formatted message).  The table is never
written to, and `import_module` is invoked exactly once per call. -/
def import_ {μ : Type} (importlib : String → Option μ) (caller : Frame)
    (messages : List (String × String)) (module : String) : ImportResult μ :=
  match importlib module with
  | some mod =>
      { result := Except.ok mod
        stderrPrints := []
        stdoutPrints := []
        importAttempts := 1
        messagesAfter := messages
        builtFallback := none }
  | none =>
    match messages.lookup module with
    | none =>
        { result := Except.error (PyError.importError ("No module named " ++ module))
          stderrPrints := []
          stdoutPrints := []
          importAttempts := 1
          messagesAfter := messages
          builtFallback := some (fallbackTemplate module) }
    | some message =>
        let m := dedent (pyFormat message (basename caller.filename) caller.line_number)
        { result := Except.error (PyError.delayImportError m)
          stderrPrints := ["", mkBar m, m, mkBar m]
          stdoutPrints := []
          importAttempts := 1
          messagesAfter := messages
          builtFallback := none }

/-- A value bound in the module namespace: a module object or a boolean. -/
inductive NsVal (μ : Type) where
  | module (m : μ)
  | bool (b : Bool)
deriving Repr, DecidableEq

/-- Bind a name in the namespace (any previous binding is replaced). -/
def nsSet {μ : Type} (ns : List (String × NsVal μ)) (k : String) (v : NsVal μ) :
    List (String × NsVal μ) :=
  (k, v) :: ns.filter (fun p => p.1 != k)

/-- `del name`: remove a binding from the namespace. -/
def nsDel {μ : Type} (ns : List (String × NsVal μ)) (k : String) :
    List (String × NsVal μ) :=
  ns.filter (fun p => p.1 != k)

/-- The module-load-time probe of source lines 109-115: try `import mbuild`
(binding the name `mbuild`); on success bind `has_mbuild = True` and then
`del mbuild`; on `ImportError` bind `has_mbuild = False`.  The result is the
module namespace those statements leave behind. -/
def moduleInit {μ : Type} (importlib : String → Option μ) :
    List (String × NsVal μ) :=
  match importlib "mbuild" with
  | some m =>
      let ns := nsSet ([] : List (String × NsVal μ)) "mbuild" (NsVal.module m)
      let ns := nsSet ns "has_mbuild" (NsVal.bool true)
      nsDel ns "mbuild"
  | none => nsSet ([] : List (String × NsVal μ)) "has_mbuild" (NsVal.bool false)

/-- The value of the `has_mbuild` flag computed by those statements. -/
def has_mbuild {μ : Type} (importlib : String → Option μ) : Bool :=
  (importlib "mbuild").isSome

/-- A host import system in which no module is installed (every
`import_module` call raises `ImportError`). -/
def importNone : String → Option Nat := fun _ => none

/-- A host import system in which exactly the module `"tables"` is installed,
loading to the module object `37`. -/
def importTables : String → Option Nat :=
  fun s => if s = "tables" then some 37 else none

/-- A concrete caller frame used to evaluate the theorems below. -/
def frame0 : Frame := { filename := "/home/user/script.py", line_number := 42 }

end Foyer

namespace Foyer

/-- Appending strings appends their character data. -/
theorem string_data_append (a b : String) : (a ++ b).data = a.data ++ b.data := rfl

/-- The bar contains exactly `maxLineLen m` hash marks: the ANSI escape
sequences around it contain none. -/
theorem mkBar_count_hash (m : String) : (mkBar m).data.count '#' = maxLineLen m := by
  have h1 : List.count '#' "\x1b[91m".data = 0 := by decide
  have h2 : List.count '#' "\x1b[0m".data = 0 := by decide
  unfold mkBar
  rw [string_data_append, string_data_append, List.count_append, List.count_append,
    h1, h2]
  simp [List.count_replicate_self]

/-- C3: for every module name whose import succeeds, `import_` returns the
loaded module object unchanged and prints nothing to stderr or stdout. -/
theorem import_success_returns_module {μ : Type} (importlib : String → Option μ)
    (caller : Frame) (messages : List (String × String)) (module : String) (m : μ)
    (h : importlib module = some m) :
    (import_ importlib caller messages module).result = Except.ok m ∧
    (import_ importlib caller messages module).stderrPrints = [] ∧
    (import_ importlib caller messages module).stdoutPrints = [] := by
  unfold import_
  rw [h]
  exact ⟨rfl, rfl, rfl⟩

/-- Witness for C3 at the docstring's own example module `"tables"`. -/
theorem import_success_returns_module_witness :
    importTables "tables" = some 37 ∧
    ((import_ importTables frame0 MESSAGES "tables").result = Except.ok 37 ∧
     (import_ importTables frame0 MESSAGES "tables").stderrPrints = [] ∧
     (import_ importTables frame0 MESSAGES "tables").stdoutPrints = []) :=
  ⟨rfl, import_success_returns_module importTables frame0 MESSAGES "tables" 37 rfl⟩

/-- C6: for every module name that is a key of `MESSAGES`, a load failure
raises `DelayImportError` carrying exactly that key's template with
`filename` replaced by the caller's base file name and `line_number` by the
caller's line number, then dedented; the generic fallback is never built on
this branch. -/
theorem import_table_hit_uses_template {μ : Type} (importlib : String → Option μ)
    (caller : Frame) (module t : String)
    (h1 : importlib module = none) (h2 : MESSAGES.lookup module = some t) :
    (import_ importlib caller MESSAGES module).result =
      Except.error (PyError.delayImportError
        (dedent (pyFormat t (basename caller.filename) caller.line_number))) ∧
    (import_ importlib caller MESSAGES module).builtFallback = none := by
  unfold import_
  rw [h1, h2]
  exact ⟨rfl, rfl⟩

/-- Witness for C6 at the table key `"mbuild"`. -/
theorem import_table_hit_uses_template_witness :
    importNone "mbuild" = none ∧ MESSAGES.lookup "mbuild" = some mbuildMessage ∧
    ((import_ importNone frame0 MESSAGES "mbuild").result =
      Except.error (PyError.delayImportError
        (dedent (pyFormat mbuildMessage (basename frame0.filename) frame0.line_number))) ∧
     (import_ importNone frame0 MESSAGES "mbuild").builtFallback = none) :=
  ⟨rfl, rfl, import_table_hit_uses_template importNone frame0 "mbuild" mbuildMessage rfl rfl⟩

/-- C4: whenever `import_` prints a failure block, the printed lines are a
blank line, the bar, the formatted dedented message, and the bar again, and
the bar is a row of `'#'` wrapped in the bright-red ANSI code and the reset
code whose hash count equals the length of the longest line of the message. -/
theorem import_bar_matches_longest_line {μ : Type} (importlib : String → Option μ)
    (caller : Frame) (module : String)
    (h : (import_ importlib caller MESSAGES module).stderrPrints ≠ []) :
    ∃ t msg, MESSAGES.lookup module = some t ∧
      msg = dedent (pyFormat t (basename caller.filename) caller.line_number) ∧
      (import_ importlib caller MESSAGES module).stderrPrints =
        ["", mkBar msg, msg, mkBar msg] ∧
      mkBar msg = "\x1b[91m" ++ String.mk (List.replicate (maxLineLen msg) '#') ++ "\x1b[0m" ∧
      (mkBar msg).data.count '#' = ((msg.splitOn "\n").map String.length).foldl max 0 := by
  cases h1 : importlib module with
  | some m =>
    exfalso
    apply h
    unfold import_
    rw [h1]
  | none =>
    cases h2 : MESSAGES.lookup module with
    | none =>
      exfalso
      apply h
      unfold import_
      rw [h1, h2]
    | some t =>
      refine ⟨t, dedent (pyFormat t (basename caller.filename) caller.line_number),
        rfl, rfl, ?_, rfl, ?_⟩
      · unfold import_
        rw [h1, h2]
      · rw [mkBar_count_hash]
        rfl

/-- Witness for C4 at the table key `"mbuild"`. -/
theorem import_bar_matches_longest_line_witness :
    (import_ importNone frame0 MESSAGES "mbuild").stderrPrints ≠ [] ∧
    (∃ t msg, MESSAGES.lookup "mbuild" = some t ∧
      msg = dedent (pyFormat t (basename frame0.filename) frame0.line_number) ∧
      (import_ importNone frame0 MESSAGES "mbuild").stderrPrints =
        ["", mkBar msg, msg, mkBar msg] ∧
      mkBar msg = "\x1b[91m" ++ String.mk (List.replicate (maxLineLen msg) '#') ++ "\x1b[0m" ∧
      (mkBar msg).data.count '#' = ((msg.splitOn "\n").map String.length).foldl max 0) :=
  ⟨by decide, import_bar_matches_longest_line importNone frame0 "mbuild" (by decide)⟩


/-- C7: the module-load-time probe binds `has_mbuild` to `True` exactly when
importing `"mbuild"` succeeds and to `False` when that import raises
`ImportError`, and the name `mbuild` is not left bound in the namespace. -/
theorem has_mbuild_flag_spec {μ : Type} (importlib : String → Option μ) :
    (moduleInit importlib).lookup "has_mbuild" =
      some (NsVal.bool (has_mbuild importlib)) ∧
    (has_mbuild importlib = true ↔ (∃ m, importlib "mbuild" = some m)) ∧
    (moduleInit importlib).lookup "mbuild" = none := by
  cases h : importlib "mbuild" with
  | some m =>
    unfold moduleInit has_mbuild
    rw [h]
    refine ⟨rfl, ?_, rfl⟩
    simp
  | none =>
    unfold moduleInit has_mbuild
    rw [h]
    refine ⟨rfl, ?_, rfl⟩
    simp

/-- C8: the Hint Table is read-only shared state: no call of `import_`
changes it on any path, its keys are pairwise distinct, and a missed lookup
is never surfaced to the caller as a `KeyError`. -/
theorem messages_read_only_invariant {μ : Type} (importlib : String → Option μ)
    (caller : Frame) (module : String) :
    (import_ importlib caller MESSAGES module).messagesAfter = MESSAGES ∧
    (MESSAGES.map Prod.fst).Nodup ∧
    ∀ k, (import_ importlib caller MESSAGES module).result ≠
      Except.error (PyError.keyError k) := by
  refine ⟨?_, by decide, ?_⟩
  · cases h1 : importlib module with
    | some m =>
      unfold import_
      rw [h1]
    | none =>
      cases h2 : MESSAGES.lookup module with
      | none =>
        unfold import_
        rw [h1, h2]
      | some t =>
        unfold import_
        rw [h1, h2]
  · intro k
    cases h1 : importlib module with
    | some m =>
      unfold import_
      rw [h1]
      simp
    | none =>
      cases h2 : MESSAGES.lookup module with
      | none =>
        unfold import_
        rw [h1, h2]
        simp
      | some t =>
        unfold import_
        rw [h1, h2]
        simp

/-- C10: when the import of a module name that is not a key of `MESSAGES`
fails, `import_` raises a plain `ImportError` reading exactly
`"No module named <module_name>"`, prints nothing to either stream, and the
generic fallback template is built with its placeholders left uninterpolated
and then discarded. -/
theorem import_absent_raises_plain_import_error {μ : Type}
    (importlib : String → Option μ) (caller : Frame) (module : String)
    (h1 : importlib module = none) (h2 : MESSAGES.lookup module = none) :
    (import_ importlib caller MESSAGES module).result =
      Except.error (PyError.importError ("No module named " ++ module)) ∧
    (import_ importlib caller MESSAGES module).stderrPrints = [] ∧
    (import_ importlib caller MESSAGES module).stdoutPrints = [] ∧
    (import_ importlib caller MESSAGES module).builtFallback =
      some ("The code at {filename}:{line_number} requires the " ++ module ++ " package") := by
  unfold import_
  rw [h1, h2]
  exact ⟨rfl, rfl, rfl, rfl⟩

/-- Witness for C10 at the unregistered module name `"foobar"`. -/
theorem import_absent_raises_plain_import_error_witness :
    importNone "foobar" = none ∧ MESSAGES.lookup "foobar" = none ∧
    ((import_ importNone frame0 MESSAGES "foobar").result =
      Except.error (PyError.importError ("No module named " ++ "foobar")) ∧
     (import_ importNone frame0 MESSAGES "foobar").stderrPrints = [] ∧
     (import_ importNone frame0 MESSAGES "foobar").stdoutPrints = [] ∧
     (import_ importNone frame0 MESSAGES "foobar").builtFallback =
      some ("The code at {filename}:{line_number} requires the " ++ "foobar" ++ " package")) :=
  ⟨rfl, rfl,
    import_absent_raises_plain_import_error importNone frame0 "foobar" rfl rfl⟩

/-- C1 fails on the code: at the docstring's own example module `"tables"`
(absent from the Hint Table) a failed import raises an error that an
import-error check detects but a skip check does not — so not every failure
raises the dual-taxonomy error. -/
theorem import_fail_absent_not_skippable :
    (import_ importNone frame0 MESSAGES "tables").result =
      Except.error (PyError.importError "No module named tables") ∧
    PyError.isImportError (PyError.importError "No module named tables") = true ∧
    PyError.isSkipTest (PyError.importError "No module named tables") = false :=
  ⟨rfl, rfl, rfl⟩

/-- C2 fails on the code: for the unregistered name `"foobar"` the failure
message is `"No module named foobar"`, while the synthesized fallback
template keeps its `\x7bfilename\x7d:\x7bline_number\x7d` placeholders
uninterpolated and is discarded, so no message of the claimed form
`"The code at script.py:42 requires the foobar package"` is ever produced. -/
theorem import_fail_absent_discards_fallback :
    (import_ importNone frame0 MESSAGES "foobar").result =
      Except.error (PyError.importError "No module named foobar") ∧
    (import_ importNone frame0 MESSAGES "foobar").builtFallback =
      some "The code at {filename}:{line_number} requires the foobar package" ∧
    "No module named foobar" ≠
      "The code at script.py:42 requires the foobar package" :=
  ⟨rfl, rfl, by decide⟩

/-- C5 fails on the code: for the unregistered name `"scipy"` the call is on
the failure path, yet nothing at all is written to the error stream (and
nothing to the normal output stream). -/
theorem import_fail_absent_prints_nothing :
    (import_ importNone frame0 MESSAGES "scipy").result =
      Except.error (PyError.importError "No module named scipy") ∧
    (import_ importNone frame0 MESSAGES "scipy").stderrPrints = [] ∧
    (import_ importNone frame0 MESSAGES "scipy").stdoutPrints = [] :=
  ⟨rfl, rfl, rfl⟩

/-- C9 fails on the code: for the unregistered name `"networkx"` the error
crossing the boundary is the plain `ImportError "No module named networkx"`,
which is not the dual-kind `DelayImportError` and whose description is not a
formatted message naming the caller's location. -/
theorem import_fail_absent_error_not_dual :
    (import_ importNone frame0 MESSAGES "networkx").result =
      Except.error (PyError.importError "No module named networkx") ∧
    PyError.isSkipTest (PyError.importError "No module named networkx") = false ∧
    PyError.importError "No module named networkx" ≠
      PyError.delayImportError "No module named networkx" :=
  ⟨rfl, rfl, by decide⟩

end Foyer
